import Mathlib

/-!
Verification of the rad-rag-qca question-dependency and finding-aggregation
engine. The definitions below are shallow embeddings of the Python source:
external effects (the language-model call, JSON parsing) are modelled as
explicit function parameters; a call that can raise is modelled with
Except or Option, where the error value stands for the raised exception.
-/

namespace RadRag

/-- Substring test mirroring the Python `needle in hay` operator on strings. -/
def strContains (hay needle : String) : Bool :=
  decide (needle.toList <:+: hay.toList)

/-- Whitespace stripping mirroring the Python str.strip method, defined by
structural recursion on the character list so that it evaluates on
concrete inputs. -/
def pyStrip (s : String) : String :=
  String.mk
    (((s.toList.dropWhile Char.isWhitespace).reverse.dropWhile
      Char.isWhitespace).reverse)

/-- Question record as produced by the hierarchical question compiler and
consumed by the visible-list construction in src/ui/main.py. Keys that a
screening question does not carry (depends_on, follow_up) are Option. -/
structure Question where
  type : String
  id : String
  category : String
  subcategory : String
  question : String
  follow_up : Option String := none
  depends_on : Option String := none
deriving DecidableEq, Repr

/-- Answer record as stored in st.session_state.answers by src/ui/main.py,
and likewise the finding dictionaries consumed by src/src/report_generator.py.
The answer key is Option because the positive-findings projection built by
the UI omits it. -/
structure AnswerRec where
  question : String
  category : String
  subcategory : String
  item : String
  answer : Option String
  details : String
deriving DecidableEq, Repr

/-- Technique template table from src/config/prompts.py (TECHNIQUE_TEMPLATES). -/
def TECHNIQUE_TEMPLATES : List (String × String) :=
  [("ct_chest", "Volume scan of chest was done without IV contrast."),
   ("ct_head", "Axial CT images of the head were obtained without IV contrast."),
   ("ct_lumbar_spine", "Axial and sagittal CT images of the lumbar spine were obtained."),
   ("ct_cervical_spine", "Axial and sagittal CT images of the cervical spine were obtained."),
   ("ct_thoracic_spine", "Axial and sagittal CT images of the thoracic spine were obtained."),
   ("ct_soft_tissue_neck", "Axial CT images of the neck soft tissues were obtained."),
   ("ct_temporal_bone", "High-resolution CT images of the temporal bones were obtained.")]

/-- Embeds RadiologyReportGenerator.generate_technique_section:
TECHNIQUE_TEMPLATES.get(mod_study, default) with the generic templated
sentence as default. -/
def generate_technique_section (mod_study : String) : String :=
  (List.lookup mod_study TECHNIQUE_TEMPLATES).getD
    ("CT images of " ++ mod_study ++ " were obtained.")

/-- Embeds RadiologyReportGenerator.generate_impression_section from
src/src/report_generator.py. The llm parameter is the outcome of the
invoke call at this call site (none means the call raised); the second
component of the result counts how many model calls were performed. -/
def generate_impression_section (llm : Option String)
    (findings : List AnswerRec) : String × Nat :=
  let positive_findings := findings.filter (fun f => f.answer == some "Yes")
  if positive_findings.isEmpty then
    ("No significant abnormalities identified on the current study.", 0)
  else
    match llm with
    | some content => (content, 1)
    | none => ("Error generating impression section.", 1)

/-- Embeds the grouping and pass-through behaviour of
RadiologyReportGenerator.generate_observations_section from
src/src/report_generator.py. The positive and negative groupings feed the
prompt only; the returned section text is the invoke result (the llm
parameter, with none standing for a raised call), or the fixed error
marker. The second component counts model calls. -/
def generate_observations_section (llm : Option String)
    (_findings _all_answers : List AnswerRec) : String × Nat :=
  match llm with
  | some content => (content, 1)
  | none => ("Error generating observations section.", 1)

/-- Entry recorded in a positive-findings bucket by the observations
grouping: the question text together with the (possibly substituted)
details text. -/
structure ObsEntry where
  question : String
  details : String
deriving DecidableEq, Repr

/-- Details normalisation of the observations grouping: strip whitespace
and substitute the fixed marker when nothing remains. -/
def markDetails (d : String) : String :=
  let details_text := pyStrip d
  if details_text = "" then "Present (no additional details provided)"
  else details_text

/-- Insertion into a per-subcategory bucket map, mirroring the Python
dictionary with insertion order preserved: append to an existing bucket
or create a new one at the end. -/
def addGroup {α : Type} (g : List (String × List α)) (key : String)
    (e : α) : List (String × List α) :=
  match g with
  | [] => [(key, [e])]
  | (k, es) :: rest =>
    if k = key then (k, es ++ [e]) :: rest
    else (k, es) :: addGroup rest key e

/-- Bucket contents for a key, empty when the key has no bucket. -/
def groupLookup {α : Type} (g : List (String × List α)) (key : String) :
    List α :=
  (List.lookup key g).getD []

/-- Entry built from a finding by the observations grouping. -/
def obsEntryOf (f : AnswerRec) : ObsEntry :=
  { question := f.question, details := markDetails f.details }

/-- Embeds the positive-findings grouping loop of
generate_observations_section (src/src/report_generator.py lines
102-119): every element of the findings argument is bucketed by its
subcategory with normalised details. -/
def groupPositive (findings : List AnswerRec) :
    List (String × List ObsEntry) :=
  findings.foldl (fun g f => addGroup g f.subcategory (obsEntryOf f)) []

/-- Embeds the negative-findings grouping loop of
generate_observations_section (lines 121-131): answers whose answer is No
are bucketed by subcategory, keeping only the question text. -/
def groupNegative (all_answers : List AnswerRec) :
    List (String × List String) :=
  all_answers.foldl (fun g a =>
    if a.answer == some "No" then addGroup g a.subcategory a.question
    else g) []

/-- Embeds the positive-findings projection of src/ui/main.py (lines
580-589): keep exactly the answers whose answer is Yes, projected to the
finding record (which carries no answer key). -/
def positiveFindings (answers : List AnswerRec) : List AnswerRec :=
  (answers.filter (fun a => a.answer == some "Yes")).map (fun a =>
    { question := a.question, category := a.category,
      subcategory := a.subcategory, item := a.item,
      answer := none, details := a.details })

/-- Case metadata record as saved by the Case Input page of src/ui/main.py. -/
structure CaseMeta where
  case_id : String
  age : String
  gender : String
  clinical_history : String
  mod_study : String
deriving DecidableEq, Repr

/-- Patient info sub-record of the report. -/
structure PatientInfo where
  age : String
  gender : String
deriving DecidableEq, Repr

/-- Report body sub-record holding the four text sections. -/
structure ReportBody where
  history : String
  technique : String
  observations : String
  impression : String
deriving DecidableEq, Repr

/-- Complete report record returned by generate_complete_report. -/
structure Report where
  case_id : String
  date : String
  patient_info : PatientInfo
  study_type : String
  report : ReportBody
  findings : List AnswerRec
deriving DecidableEq, Repr

/-- Embeds RadiologyReportGenerator.generate_complete_report from
src/src/report_generator.py. The two model calls are modelled by their
outcomes obsLLM and impLLM; now is the timestamp string. -/
def generate_complete_report (obsLLM impLLM : Option String) (now : String)
    (case_metadata : CaseMeta) (findings : List AnswerRec)
    (all_answers : Option (List AnswerRec)) : Report :=
  let mod_study := case_metadata.mod_study
  let all_answers := all_answers.getD findings
  let history := case_metadata.clinical_history
  let technique := generate_technique_section mod_study
  let observations := (generate_observations_section obsLLM findings all_answers).1
  let impression := (generate_impression_section impLLM findings).1
  { case_id := case_metadata.case_id
    date := now
    patient_info := { age := case_metadata.age, gender := case_metadata.gender }
    study_type := mod_study
    report := { history := history, technique := technique,
                observations := observations, impression := impression }
    findings := findings }

/-- Screening questions of a compiled question list, in generation order,
as selected by the visible-list construction of src/ui/main.py. -/
def screeningQuestions (qs : List Question) : List Question :=
  qs.filter (fun q => q.type == "screening")

/-- Specific questions of the compiled list whose depends_on equals the
given screening id, in their original relative order. -/
def specificsDependingOn (qs : List Question) (sid : String) : List Question :=
  qs.filter (fun q => q.type == "specific" && q.depends_on == some sid)

/-- Embeds the all_questions visible-list construction of src/ui/main.py
(lines 433-458): walk the screening questions in order, append each, and
when its recorded screening answer is Yes append all its dependent
specific questions right after it. screening_answers is the recorded
answer map. -/
def all_questions (qs : List Question)
    (screening_answers : List (String × String)) : List Question :=
  (screeningQuestions qs).foldl (fun acc s =>
    let acc1 := acc ++ [s]
    if List.lookup s.id screening_answers == some "Yes" then
      acc1 ++ specificsDependingOn qs s.id
    else acc1) []

/-- Example question set from the spec scenario: two regions, the first
with two dependent specific questions, the second with one. -/
def exQs : List Question :=
  [{ type := "screening", id := "screening_0", category := "Lungs",
     subcategory := "Parenchyma", question := "Any abnormality in Parenchyma?" },
   { type := "specific", id := "specific_0_0", category := "Lungs",
     subcategory := "Parenchyma", question := "Any nodules?",
     depends_on := some "screening_0" },
   { type := "specific", id := "specific_0_1", category := "Lungs",
     subcategory := "Parenchyma", question := "Any effusion?",
     depends_on := some "screening_0" },
   { type := "screening", id := "screening_1", category := "Pleura",
     subcategory := "Effusion", question := "Any abnormality in Effusion?" },
   { type := "specific", id := "specific_1_0", category := "Pleura",
     subcategory := "Effusion", question := "Any pneumothorax?",
     depends_on := some "screening_1" }]

/-- Example recorded screening answers: the first region answered Yes, the
second unanswered. -/
def exSa : List (String × String) := [("screening_0", "Yes")]

/-- Markdown code fence stripping applied to model responses before JSON
parsing, as in src/src/checklist_generator.py and src/ui/main.py: the
Python replace removes every occurrence of the fence marker. -/
def stripFences (s : String) : String :=
  if s.startsWith "```json" then
    pyStrip ((s.replace "```json" "").replace "```" "")
  else if s.startsWith "```" then pyStrip (s.replace "```" "")
  else s

/-- Checklist item hierarchy produced by the checklist generator:
Category, Subcategory, finding items. -/
structure Subcat where
  name : String
  items : List String
deriving DecidableEq, Repr

/-- Checklist category with its subcategories. -/
structure Cat where
  category : String
  subcategories : List Subcat
deriving DecidableEq, Repr

/-- Hierarchical checklist record. -/
structure Checklist where
  checklist : List Cat
deriving DecidableEq, Repr

/-- Result of checklist generation: either the error dictionary or the
parsed checklist JSON. -/
inductive ChecklistResult where
  | error (msg : String)
  | ok (c : Checklist)
deriving DecidableEq, Repr

/-- True exactly on the error dictionary, mirroring the `"error" in
checklist` test of the caller. -/
def ChecklistResult.isError : ChecklistResult → Bool
  | .error _ => true
  | .ok _ => false

/-- Embeds RadiologyChecklistGenerator.generate_checklist from
src/src/checklist_generator.py. chunks is the protocol-store lookup
result for mod_study; llm is the invoke outcome (.error is a raised
call); parse is the json.loads outcome on the fence-stripped text (none
is a JSONDecodeError). The Nat counts model invocations. -/
def generate_checklist (chunks : List String) (llm : Except String String)
    (parse : String → Option Checklist) (mod_study : String) :
    ChecklistResult × Nat :=
  if chunks.isEmpty then
    (.error ("No chunks found for study: " ++ mod_study), 0)
  else
    match llm with
    | .error e => (.error ("Failed to generate checklist: " ++ e), 1)
    | .ok content =>
      match parse (stripFences (pyStrip content)) with
      | none => (.error "Failed to generate valid checklist JSON", 1)
      | some j => (.ok j, 1)

/-- Session state fields of the Interactive Checklist page that the
checklist-generation handler touches. -/
structure SessionState where
  checklist : Option Checklist
  checklist_generated : Bool
  current_question : Nat
  answers : List AnswerRec
deriving Repr

/-- Embeds the error gate of the Interactive Checklist page in
src/ui/main.py (lines 372-384): on an error result the session state is
left unchanged (only an error message is displayed), so
checklist_generated stays false and question compilation is never
reached; on success the checklist is stored and the session reset. -/
def handleChecklistResult (s : SessionState) (r : ChecklistResult) :
    SessionState :=
  match r with
  | .error _ => s
  | .ok c =>
    { s with
      checklist := some c
      checklist_generated := true
      current_question := 0
      answers := [] }

/-- Embeds the question refinement block of src/ui/main.py (lines 466-491):
before presenting a specific question, when prior answers hold positive
findings with details and the question was not already refined, the model
is asked to rewrite the question text; on success only the question field
is replaced, and when the call raises the question is left untouched. -/
def refineQuestionStep (q : Question) (answers : List AnswerRec)
    (alreadyRefined : Bool) (llm : Except String String) : Question :=
  if q.type == "specific" && !answers.isEmpty then
    let previous_findings := answers.filterMap (fun a =>
      if a.answer == some "Yes" && a.details ≠ "" then
        some (a.question ++ ": " ++ a.details)
      else none)
    if !previous_findings.isEmpty && !alreadyRefined then
      match llm with
      | .ok content => { q with question := pyStrip content }
      | .error _ => q
    else q
  else q

/-- Non-clinical category names skipped by the simple question compiler
(src/simple_qa_system.py). -/
def skip_categories : List String :=
  ["Initial Assessment", "Final Checks", "Image Quality"]

/-- Procedural keywords of convert_item_to_clinical_question. -/
def skip_words : List String :=
  ["scroll", "compare", "review", "check", "assess", "evaluate",
   "examine", "look for", "ensure", "confirm"]

/-- Lower-casing mirroring the Python str.lower method, by structural
recursion on the character list. -/
def pyLower (s : String) : String :=
  String.mk (s.toList.map Char.toLower)

/-- Question dictionary shape of src/simple_qa_system.py: screening
questions carry an id but no subcategory; specific questions carry
subcategory, follow_up and depends_on but no id. -/
structure SQuestion where
  level : Nat
  type : String
  category : String
  question : String
  subcategory : Option String := none
  id : Option String := none
  follow_up : Option String := none
  depends_on : Option String := none
deriving DecidableEq, Repr

/-- Embeds convert_item_to_clinical_question from src/simple_qa_system.py:
items holding a procedural keyword are converted to a fixed clinical
question when an anatomy keyword matches, and every other item is
dropped. -/
def convert_item_to_clinical_question (item category subcategory
    depends_on_id : String) : Option SQuestion :=
  let item_lower := pyLower item
  if skip_words.any (fun w => strContains item_lower w) then
    if strContains item_lower "trachea" then
      some { level := 2, type := "specific", category := category,
             subcategory := some subcategory,
             question := "Is the trachea patent and normal in caliber?",
             follow_up := some "If abnormal, describe the location, size, and nature of the abnormality.",
             depends_on := some depends_on_id }
    else if strContains item_lower "effusion"
        || strContains item_lower "pneumothorax" then
      some { level := 2, type := "specific", category := category,
             subcategory := some subcategory,
             question := "Is there any pleural effusion or pneumothorax?",
             follow_up := some "If present, specify location, size (volume in ml or depth in cm), and characteristics.",
             depends_on := some depends_on_id }
    else if strContains item_lower "consolidation"
        || strContains item_lower "masses"
        || strContains item_lower "nodules" then
      some { level := 2, type := "specific", category := category,
             subcategory := some subcategory,
             question := "Are there any consolidations, masses, or nodules?",
             follow_up := some "If present, specify location, size (in cm or mm), density, and characteristics.",
             depends_on := some depends_on_id }
    else if strContains item_lower "heart" && strContains item_lower "size" then
      some { level := 2, type := "specific", category := category,
             subcategory := some subcategory,
             question := "Is the heart size normal?",
             follow_up := some "If enlarged, specify cardiothoracic ratio and chamber involvement.",
             depends_on := some depends_on_id }
    else if strContains item_lower "aorta" then
      some { level := 2, type := "specific", category := category,
             subcategory := some subcategory,
             question := "Is the aorta normal in size and appearance?",
             follow_up := some "If abnormal, specify location, diameter, and nature of abnormality (aneurysm/dissection).",
             depends_on := some depends_on_id }
    else if strContains item_lower "lymph" then
      some { level := 2, type := "specific", category := category,
             subcategory := some subcategory,
             question := "Are there any enlarged lymph nodes?",
             follow_up := some "If present, specify location, size (short axis in mm), and stations involved.",
             depends_on := some depends_on_id }
    else if strContains item_lower "fracture" then
      some { level := 2, type := "specific", category := category,
             subcategory := some subcategory,
             question := "Are there any bone fractures?",
             follow_up := some "If present, specify bones involved, location, and characteristics (displaced/non-displaced).",
             depends_on := some depends_on_id }
    else none
  else none

/-- Inner item loop of create_simple_questions_from_checklist: append the
converted question when conversion succeeds. -/
def addItemQuestion (cat sub did : String) (qs : List SQuestion)
    (item : String) : List SQuestion :=
  match convert_item_to_clinical_question item cat sub did with
  | some q => qs ++ [q]
  | none => qs

/-- Subcategory loop of create_simple_questions_from_checklist. -/
def addSubcatQuestions (cat did : String) (qs : List SQuestion)
    (sub : Subcat) : List SQuestion :=
  sub.items.foldl (addItemQuestion cat sub.name did) qs

/-- Category step of create_simple_questions_from_checklist: skip
procedural categories; otherwise append the category screening question
(with id cat_<running question count>) and then the converted items of
each subcategory. -/
def addCategoryQuestions (qs : List SQuestion) (c : Cat) : List SQuestion :=
  if skip_categories.any (fun sk => strContains c.category sk) then qs
  else
    let sid := "cat_" ++ toString qs.length
    let screening_q : SQuestion :=
      { level := 1, type := "screening", category := c.category,
        question := "Are there any abnormalities in the " ++ c.category ++ "?",
        id := some sid }
    c.subcategories.foldl (addSubcatQuestions c.category sid) (qs ++ [screening_q])

/-- Embeds create_simple_questions_from_checklist from
src/simple_qa_system.py. -/
def create_simple_questions_from_checklist (cl : Checklist) :
    List SQuestion :=
  cl.checklist.foldl addCategoryQuestions []

/-- Number of screening questions in a compiled simple question list. -/
def screeningCountS (qs : List SQuestion) : Nat :=
  (qs.filter (fun q => q.type == "screening")).length

/-- An item is procedural when it holds one of the procedural keywords of
the compiler, lower-cased. -/
def isProceduralItem (item : String) : Bool :=
  skip_words.any (fun w => strContains (pyLower item) w)

/-- Number of subcategories of a checklist holding at least one
non-procedural (clinical) item — the quantity the spec says the screening
question count equals. -/
def subcatsWithClinicalItem (cl : Checklist) : Nat :=
  ((cl.checklist.flatMap (fun c => c.subcategories)).filter
    (fun sub => sub.items.any (fun i => !(isProceduralItem i)))).length

/-- Concrete checklist with one category and two subcategories, each
holding one clinical (non-procedural) item. -/
def exChecklist2 : Checklist :=
  { checklist :=
      [{ category := "Chest Structures",
         subcategories :=
           [{ name := "Airways", items := ["endobronchial lesions"] },
            { name := "Pleura", items := ["pleural effusion"] }] }] }

/-- Fallback question set FALLBACK_QUESTIONS from src/config/prompts.py. -/
def FALLBACK_QUESTIONS : List Question :=
  [{ type := "screening", id := "screening_0",
     category := "General Assessment", subcategory := "Overall Evaluation",
     question := "Are there any overall abnormalities visible on the study?" },
   { type := "specific", id := "specific_0_0",
     category := "General Assessment", subcategory := "Overall Evaluation",
     question := "Are there any masses or tumors present?",
     follow_up := some "If present, describe: location, size (in mm/cm), characteristics (solid/cystic/mixed), margins, and associated findings.",
     depends_on := some "screening_0" },
   { type := "specific", id := "specific_0_1",
     category := "General Assessment", subcategory := "Overall Evaluation",
     question := "Are there any fractures or bone abnormalities?",
     follow_up := some "If present, describe: bones involved, location, displacement, alignment, and characteristics.",
     depends_on := some "screening_0" },
   { type := "specific", id := "specific_0_2",
     category := "General Assessment", subcategory := "Overall Evaluation",
     question := "Are there any fluid collections?",
     follow_up := some "If present, describe: location, size, density/signal characteristics, and associated findings.",
     depends_on := some "screening_0" },
   { type := "specific", id := "specific_0_3",
     category := "General Assessment", subcategory := "Overall Evaluation",
     question := "Are the soft tissues normal?",
     follow_up := some "If abnormal, describe: location, size, characteristics, and nature of abnormality.",
     depends_on := some "screening_0" }]

/-- Embeds get_fallback_questions from src/ui/main.py: the study type is
ignored and the fixed set returned. -/
def get_fallback_questions (_study_type : String) : List Question :=
  FALLBACK_QUESTIONS

/-- Outcome of json.loads on the question-compilation response: a parse
failure is none; parsed JSON is either a list of questions or some other
JSON value (the isinstance check). -/
inductive ParsedValue where
  | list (qs : List Question)
  | nonList
deriving DecidableEq, Repr

/-- Embeds generate_hierarchical_questions_from_checklist from
src/ui/main.py (lines 28-90): llm is the invoke outcome, parse the
json.loads outcome on the fence-stripped stripped response. Every failure
path returns the fallback set. -/
def generate_hierarchical_questions_from_checklist
    (llm : Except String String) (parse : String → Option ParsedValue)
    (study_type : String) : List Question :=
  match llm with
  | .error _ => get_fallback_questions study_type
  | .ok content =>
    let response_text := stripFences (pyStrip content)
    match parse response_text with
    | none => get_fallback_questions study_type
    | some .nonList => get_fallback_questions study_type
    | some (.list questions) =>
      if questions.length = 0 then get_fallback_questions study_type
      else questions

/-- A measurement token: a nonempty digit run followed, optionally after
one space, by a mm, cm or ml unit. -/
def isMeasurementToken (t : String) : Prop :=
  ∃ ds u, ds ≠ [] ∧ ds.all Char.isDigit = true ∧
    (u = "mm" ∨ u = "cm" ∨ u = "ml") ∧
    (t.toList = ds ++ u.toList ∨ t.toList = ds ++ ' ' :: u.toList)

/-- The no-fabrication property of the spec: every measurement token of
the output occurs verbatim in some input details string. -/
def noFabrication (out : String) (inputs : List String) : Prop :=
  ∀ t, isMeasurementToken t → strContains out t = true →
    ∃ d ∈ inputs, strContains d t = true

/-- Concrete findings list with one positive finding whose details hold no
measurement. -/
def exObsFindings : List AnswerRec :=
  [{ question := "Any pleural effusion?", category := "Pleura",
     subcategory := "Effusion", item := "specific_1_0",
     answer := some "Yes", details := "mild effusion" }]

end RadRag

/-- Helper: a left fold that appends, for each element, the element
followed by a conditional block, equals the flat map of those blocks. -/
theorem foldl_region_blocks (cond : RadRag.Question → Bool)
    (spec : RadRag.Question → List RadRag.Question) :
    ∀ (l acc : List RadRag.Question),
      l.foldl (fun a s =>
        let a1 := a ++ [s]
        if cond s then a1 ++ spec s else a1) acc
      = acc ++ l.flatMap (fun s => s :: (if cond s then spec s else []))
  | [], acc => by simp
  | s :: rest, acc => by
    rw [List.foldl_cons, foldl_region_blocks cond spec rest]
    cases h : cond s <;> simp [h, List.append_assoc]

/-- C1: the visible question list is exactly the screening questions in
generation order, each followed immediately (before the next screening
question) by its dependent specific questions in original relative order
when its recorded answer is Yes and by nothing otherwise; consequently
every visible specific question has a screening question answered Yes
that it depends on, so an unanswered or No screening answer leaves all
its dependents invisible. -/
theorem claim1_visible_list_gating (qs : List RadRag.Question)
    (sa : List (String × String)) :
    RadRag.all_questions qs sa
      = (RadRag.screeningQuestions qs).flatMap (fun s =>
          s :: (if List.lookup s.id sa == some "Yes" then
            RadRag.specificsDependingOn qs s.id else [])) ∧
    ∀ q ∈ RadRag.all_questions qs sa, q.type = "specific" →
      ∃ s ∈ RadRag.screeningQuestions qs,
        q.depends_on = some s.id ∧ List.lookup s.id sa = some "Yes" := by
  have hflat := foldl_region_blocks
    (fun s => List.lookup s.id sa == some "Yes")
    (fun s => RadRag.specificsDependingOn qs s.id)
    (RadRag.screeningQuestions qs) []
  refine ⟨hflat, ?_⟩
  intro q hq htype
  rw [RadRag.all_questions, hflat] at hq
  simp only [List.nil_append, List.mem_flatMap] at hq
  obtain ⟨s, hs, hq⟩ := hq
  rcases List.mem_cons.mp hq with hqs | hq
  · exfalso
    have : (s.type == "screening") = true :=
      (List.mem_filter.mp hs).2
    rw [hqs] at htype
    rw [htype] at this
    simp at this
  · rcases h : (List.lookup s.id sa == some "Yes") with _ | _
    · rw [h] at hq
      simp at hq
    · rw [h] at hq
      simp only [if_true] at hq
      have hmem := (List.mem_filter.mp hq).2
      simp only [Bool.and_eq_true, beq_iff_eq] at hmem
      exact ⟨s, hs, hmem.2, by simpa using h⟩

/-- C1 witness: in the spec example scenario with the first screening
question answered Yes, the first visible specific question is certified
by the theorem to depend on some screening question answered Yes. -/
theorem claim1_visible_list_gating_witness :
    ∃ s ∈ RadRag.screeningQuestions RadRag.exQs,
      ({ type := "specific", id := "specific_0_0", category := "Lungs",
         subcategory := "Parenchyma", question := "Any nodules?",
         depends_on := some "screening_0" } : RadRag.Question).depends_on
        = some s.id ∧ List.lookup s.id RadRag.exSa = some "Yes" :=
  (claim1_visible_list_gating RadRag.exQs RadRag.exSa).2
    { type := "specific", id := "specific_0_0", category := "Lungs",
      subcategory := "Parenchyma", question := "Any nodules?",
      depends_on := some "screening_0" }
    (by decide) rfl

/-- Helper: bucket contents after an insertion. -/
theorem groupLookup_addGroup {α : Type} (g : List (String × List α))
    (key : String) (e : α) (k' : String) :
    RadRag.groupLookup (RadRag.addGroup g key e) k'
      = if k' = key then RadRag.groupLookup g k' ++ [e]
        else RadRag.groupLookup g k' := by
  induction g with
  | nil =>
    by_cases h : k' = key
    · subst h
      simp [RadRag.addGroup, RadRag.groupLookup, List.lookup]
    · have hb : (k' == key) = false := by simp [h]
      simp [RadRag.addGroup, RadRag.groupLookup, List.lookup, h, hb]
  | cons p rest ih =>
    obtain ⟨k, es⟩ := p
    by_cases hk : k = key
    · subst hk
      by_cases h : k' = k
      · subst h
        simp [RadRag.addGroup, RadRag.groupLookup, List.lookup]
      · have hb : (k' == k) = false := by simp [h]
        simp [RadRag.addGroup, RadRag.groupLookup, List.lookup, h, hb]
    · by_cases h : k' = k
      · subst h
        have hne : ¬ (k' = key) := hk
        have hb : (k' == k') = true := by simp
        simp [RadRag.addGroup, RadRag.groupLookup, List.lookup, hk, hne, hb]
      · have hb : (k' == k) = false := by simp [h]
        simp only [RadRag.addGroup, if_neg hk, RadRag.groupLookup,
          List.lookup, hb]
        simpa [RadRag.groupLookup] using ih

/-- Helper: bucket keys after an insertion. -/
theorem addGroup_keys {α : Type} (g : List (String × List α))
    (key : String) (e : α) :
    (RadRag.addGroup g key e).map Prod.fst
      = if key ∈ g.map Prod.fst then g.map Prod.fst
        else g.map Prod.fst ++ [key] := by
  induction g with
  | nil => simp [RadRag.addGroup]
  | cons p rest ih =>
    obtain ⟨k, es⟩ := p
    by_cases hk : k = key
    · subst hk
      simp [RadRag.addGroup]
    · simp only [RadRag.addGroup, if_neg hk, List.map_cons, List.mem_cons]
      rw [ih]
      by_cases hmem : key ∈ rest.map Prod.fst
      · simp [hmem, hk, Ne.symm hk]
      · simp [hmem, hk, Ne.symm hk]

/-- Helper: insertion preserves distinctness of bucket keys. -/
theorem addGroup_keys_nodup {α : Type} (g : List (String × List α))
    (key : String) (e : α) (h : (g.map Prod.fst).Nodup) :
    ((RadRag.addGroup g key e).map Prod.fst).Nodup := by
  rw [addGroup_keys]
  by_cases hmem : key ∈ g.map Prod.fst
  · simpa [hmem] using h
  · simp [hmem, List.nodup_append, h]

/-- Helper: lookup through the positive grouping fold. -/
theorem groupPositive_lookup_gen :
    ∀ (l : List RadRag.AnswerRec) (g : List (String × List RadRag.ObsEntry))
      (key : String),
      RadRag.groupLookup
          (l.foldl (fun g f =>
            RadRag.addGroup g f.subcategory (RadRag.obsEntryOf f)) g) key
        = RadRag.groupLookup g key
          ++ (l.filter (fun f => f.subcategory == key)).map RadRag.obsEntryOf
  | [], g, key => by simp
  | f :: rest, g, key => by
    rw [List.foldl_cons, groupPositive_lookup_gen rest _ key,
      groupLookup_addGroup]
    by_cases h : key = f.subcategory
    · simp [List.filter_cons, h, List.append_assoc]
    · have hb : (f.subcategory == key) = false := by
        simp only [beq_eq_false_iff_ne, ne_eq]
        exact fun hh => h hh.symm
      simp [List.filter_cons, h, hb]

/-- Helper: lookup through the negative grouping fold. -/
theorem groupNegative_lookup_gen :
    ∀ (l : List RadRag.AnswerRec) (g : List (String × List String))
      (key : String),
      RadRag.groupLookup
          (l.foldl (fun g a =>
            if a.answer == some "No" then
              RadRag.addGroup g a.subcategory a.question
            else g) g) key
        = RadRag.groupLookup g key
          ++ (l.filter (fun a =>
              a.answer == some "No" && a.subcategory == key)).map
            (fun a => a.question)
  | [], g, key => by simp
  | a :: rest, g, key => by
    rw [List.foldl_cons]
    cases hno : (a.answer == some "No") with
    | false =>
      rw [if_neg (by simp [hno])]
      rw [groupNegative_lookup_gen rest _ key]
      simp [List.filter_cons, hno]
    | true =>
      rw [if_pos (by simp [hno])]
      rw [groupNegative_lookup_gen rest _ key, groupLookup_addGroup]
      by_cases h : key = a.subcategory
      · simp [List.filter_cons, hno, h, List.append_assoc]
      · simp [List.filter_cons, hno, h, Ne.symm h]

/-- Helper: the positive grouping fold preserves distinct bucket keys. -/
theorem groupPositive_keys_nodup :
    ∀ (l : List RadRag.AnswerRec) (g : List (String × List RadRag.ObsEntry)),
      (g.map Prod.fst).Nodup →
      ((l.foldl (fun g f =>
          RadRag.addGroup g f.subcategory (RadRag.obsEntryOf f)) g).map
        Prod.fst).Nodup
  | [], g, h => h
  | f :: rest, g, h => by
    rw [List.foldl_cons]
    exact groupPositive_keys_nodup rest _ (addGroup_keys_nodup _ _ _ h)

/-- Helper: the normalised details text is never empty. -/
theorem markDetails_ne_empty (d : String) : RadRag.markDetails d ≠ "" := by
  unfold RadRag.markDetails
  dsimp only
  split
  · decide
  · assumption

/-- C4: the aggregator groups exactly the Yes answers into positive
buckets keyed by subcategory (each answer in the bucket of its own
subcategory, bucket keys distinct), substituting a fixed marker for empty
details so every positive entry has non-empty details, while No answers
are collected per subcategory as question texts. -/
theorem claim4_aggregation (answers : List RadRag.AnswerRec) :
    (∀ key,
      RadRag.groupLookup
          (RadRag.groupPositive (RadRag.positiveFindings answers)) key
        = (answers.filter (fun a =>
            a.subcategory == key && a.answer == some "Yes")).map
          (fun a => { question := a.question,
                      details := RadRag.markDetails a.details })) ∧
    (∀ key e,
      e ∈ RadRag.groupLookup
          (RadRag.groupPositive (RadRag.positiveFindings answers)) key →
      e.details ≠ "") ∧
    ((RadRag.groupPositive (RadRag.positiveFindings answers)).map
      Prod.fst).Nodup ∧
    (∀ key,
      RadRag.groupLookup (RadRag.groupNegative answers) key
        = (answers.filter (fun a =>
            a.answer == some "No" && a.subcategory == key)).map
          (fun a => a.question)) := by
  have hpos : ∀ key,
      RadRag.groupLookup
          (RadRag.groupPositive (RadRag.positiveFindings answers)) key
        = (answers.filter (fun a =>
            a.subcategory == key && a.answer == some "Yes")).map
          (fun a => { question := a.question,
                      details := RadRag.markDetails a.details }) := by
    intro key
    rw [RadRag.groupPositive, groupPositive_lookup_gen]
    rw [RadRag.positiveFindings, List.filter_map, List.filter_filter,
      List.map_map]
    simp only [RadRag.groupLookup, List.lookup_nil, Option.getD_none,
      List.nil_append]
    rfl
  refine ⟨hpos, ?_, ?_, ?_⟩
  · intro key e he
    rw [hpos] at he
    obtain ⟨a, _, ha⟩ := List.mem_map.mp he
    rw [← ha]
    exact markDetails_ne_empty a.details
  · exact groupPositive_keys_nodup _ _ (by simp)
  · intro key
    rw [RadRag.groupNegative, groupNegative_lookup_gen]
    simp [RadRag.groupLookup]

/-- C4 witness: two concrete answers, one Yes with blank details and one
No, fall into the expected buckets with the marker substituted. -/
theorem claim4_aggregation_witness :
    RadRag.groupLookup
        (RadRag.groupPositive (RadRag.positiveFindings
          [{ question := "Any nodules?", category := "Lungs",
             subcategory := "Parenchyma", item := "specific_0_0",
             answer := some "Yes", details := "  " },
           { question := "Any pneumothorax?", category := "Pleura",
             subcategory := "Effusion", item := "specific_1_0",
             answer := some "No", details := "" }])) "Parenchyma"
      = [{ question := "Any nodules?",
           details := "Present (no additional details provided)" }] ∧
    RadRag.groupLookup
        (RadRag.groupNegative
          [{ question := "Any nodules?", category := "Lungs",
             subcategory := "Parenchyma", item := "specific_0_0",
             answer := some "Yes", details := "  " },
           { question := "Any pneumothorax?", category := "Pleura",
             subcategory := "Effusion", item := "specific_1_0",
             answer := some "No", details := "" }]) "Effusion"
      = ["Any pneumothorax?"] := by
  constructor
  · rw [(claim4_aggregation _).1 "Parenchyma"]
    decide
  · rw [(claim4_aggregation _).2.2.2 "Effusion"]
    decide

/-- C5: for every study type string, the technique section equals the fixed
table entry when the study type is a key of TECHNIQUE_TEMPLATES, and equals
the generic templated sentence otherwise. -/
theorem claim5_technique_lookup (st : String) :
    (∀ v, List.lookup st RadRag.TECHNIQUE_TEMPLATES = some v →
      RadRag.generate_technique_section st = v) ∧
    (List.lookup st RadRag.TECHNIQUE_TEMPLATES = none →
      RadRag.generate_technique_section st
        = "CT images of " ++ st ++ " were obtained.") := by
  constructor
  · intro v hv
    simp [RadRag.generate_technique_section, hv]
  · intro hn
    simp [RadRag.generate_technique_section, hn]

/-- C5 witness: concrete evaluations for a study type in the table and one
outside it. -/
theorem claim5_technique_lookup_witness :
    RadRag.generate_technique_section "ct_chest"
      = "Volume scan of chest was done without IV contrast." ∧
    RadRag.generate_technique_section "ct_abdomen"
      = "CT images of ct_abdomen were obtained." :=
  ⟨(claim5_technique_lookup "ct_chest").1 _ (by decide),
   (claim5_technique_lookup "ct_abdomen").2 (by decide)⟩

/-- C6: a raised model call turns the corresponding section into its fixed
error marker, and generate_complete_report always returns the complete
record with every field populated, never a partial object. -/
theorem claim6_report_error_markers (obsLLM impLLM : Option String)
    (now : String) (cm : RadRag.CaseMeta) (findings : List RadRag.AnswerRec)
    (aa : Option (List RadRag.AnswerRec)) :
    (obsLLM = none →
      (RadRag.generate_complete_report obsLLM impLLM now cm findings aa).report.observations
        = "Error generating observations section.") ∧
    (impLLM = none →
      findings.filter (fun f => f.answer == some "Yes") ≠ [] →
      (RadRag.generate_complete_report obsLLM impLLM now cm findings aa).report.impression
        = "Error generating impression section.") ∧
    RadRag.generate_complete_report obsLLM impLLM now cm findings aa
      = { case_id := cm.case_id
          date := now
          patient_info := { age := cm.age, gender := cm.gender }
          study_type := cm.mod_study
          report := { history := cm.clinical_history
                      technique := RadRag.generate_technique_section cm.mod_study
                      observations :=
                        (RadRag.generate_observations_section obsLLM findings (aa.getD findings)).1
                      impression := (RadRag.generate_impression_section impLLM findings).1 }
          findings := findings } := by
  refine ⟨?_, ?_, rfl⟩
  · intro h
    simp [RadRag.generate_complete_report, RadRag.generate_observations_section, h]
  · intro h hne
    have hfe : (findings.filter (fun f => f.answer == some "Yes")).isEmpty = false := by
      simpa [List.isEmpty_eq_false] using hne
    simp [RadRag.generate_complete_report, RadRag.generate_impression_section, h, hfe]

/-- C6 witness: a concrete run in which both model calls raise still yields
the full report record, with both error markers in place. -/
theorem claim6_report_error_markers_witness :
    (RadRag.generate_complete_report none none "2025-01-01 00:00:00"
        { case_id := "case_1", age := "65", gender := "Male",
          clinical_history := "Chest pain", mod_study := "ct_chest" }
        [{ question := "Any nodules?", category := "Lungs",
           subcategory := "Parenchyma", item := "specific_0_0",
           answer := some "Yes", details := "5 mm nodule" }]
        none).report.observations = "Error generating observations section." ∧
    (RadRag.generate_complete_report none none "2025-01-01 00:00:00"
        { case_id := "case_1", age := "65", gender := "Male",
          clinical_history := "Chest pain", mod_study := "ct_chest" }
        [{ question := "Any nodules?", category := "Lungs",
           subcategory := "Parenchyma", item := "specific_0_0",
           answer := some "Yes", details := "5 mm nodule" }]
        none).report.impression = "Error generating impression section." := by
  refine ⟨(claim6_report_error_markers none none _ _ _ _).1 rfl,
          (claim6_report_error_markers none none _ _ _ _).2.1 rfl (by decide)⟩

/-- C7: checklist generation fails exactly on unusable input or output:
an empty protocol lookup yields an error naming the missing study type
without any model call; a raised call or a JSON parse failure yields an
error result; at most one model call is ever made (no internal retry);
and on any error result the caller gate leaves the session state
unchanged, so question compilation is not reached. -/
theorem claim7_checklist_failure (chunks : List String)
    (llm : Except String String) (parse : String → Option RadRag.Checklist)
    (mod_study : String) :
    (chunks = [] →
      RadRag.generate_checklist chunks llm parse mod_study
        = (.error ("No chunks found for study: " ++ mod_study), 0)) ∧
    (∀ e, llm = .error e → chunks ≠ [] →
      (RadRag.generate_checklist chunks llm parse mod_study).1
        = .error ("Failed to generate checklist: " ++ e)) ∧
    (∀ r, llm = .ok r → chunks ≠ [] →
      parse (RadRag.stripFences (RadRag.pyStrip r)) = none →
      (RadRag.generate_checklist chunks llm parse mod_study).1
        = .error "Failed to generate valid checklist JSON") ∧
    (RadRag.generate_checklist chunks llm parse mod_study).2 ≤ 1 ∧
    (∀ msg s, (RadRag.generate_checklist chunks llm parse mod_study).1
        = .error msg → RadRag.handleChecklistResult s (.error msg) = s) := by
  refine ⟨?_, ?_, ?_, ?_, ?_⟩
  · intro h
    simp [RadRag.generate_checklist, h]
  · intro e he hne
    have hni : chunks.isEmpty = false := by
      simpa [List.isEmpty_eq_false] using hne
    simp [RadRag.generate_checklist, he, hni]
  · intro r hr hne hp
    have hni : chunks.isEmpty = false := by
      simpa [List.isEmpty_eq_false] using hne
    simp [RadRag.generate_checklist, hr, hni, hp]
  · unfold RadRag.generate_checklist
    split
    · simp
    · rcases llm with e | content
      · simp
      · cases hp : parse (RadRag.stripFences (RadRag.pyStrip content)) <;> simp [hp]
  · intro msg s _
    rfl

/-- C7 witness: an empty protocol lookup for ct_pelvis gives the error
naming the study type with zero model calls, and the caller gate keeps
the session unchanged on that error. -/
theorem claim7_checklist_failure_witness :
    RadRag.generate_checklist [] (.ok "irrelevant") (fun _ => none) "ct_pelvis"
      = (.error "No chunks found for study: ct_pelvis", 0) ∧
    RadRag.handleChecklistResult
        { checklist := none, checklist_generated := false,
          current_question := 0, answers := [] }
        (.error "No chunks found for study: ct_pelvis")
      = { checklist := none, checklist_generated := false,
          current_question := 0, answers := [] } := by
  refine ⟨(claim7_checklist_failure [] (.ok "irrelevant") (fun _ => none) "ct_pelvis").1 rfl, ?_⟩
  exact (claim7_checklist_failure [] (.ok "irrelevant") (fun _ => none) "ct_pelvis").2.2.2.2
    "No chunks found for study: ct_pelvis" _
    (by simp [RadRag.generate_checklist])

/-- Helper: the refinement step either returns the question unchanged, or
the model call succeeded and only the question text was replaced by the
trimmed model output. -/
theorem refineQuestionStep_cases (q : RadRag.Question)
    (answers : List RadRag.AnswerRec) (alreadyRefined : Bool)
    (llm : Except String String) :
    RadRag.refineQuestionStep q answers alreadyRefined llm = q ∨
    ∃ content, llm = .ok content ∧
      RadRag.refineQuestionStep q answers alreadyRefined llm
        = { q with question := RadRag.pyStrip content } := by
  rcases llm with e | content
  · left
    unfold RadRag.refineQuestionStep
    split
    · dsimp only
      split
      · rfl
      · rfl
    · rfl
  · unfold RadRag.refineQuestionStep
    split
    · dsimp only
      split
      · right
        exact ⟨content, rfl, rfl⟩
      · left
        rfl
    · left
      rfl

/-- C8: the refinement step changes at most the question text; id,
depends_on and follow_up are untouched in every outcome, and a raised
refinement call leaves the question entirely unchanged. -/
theorem claim8_refinement_frame (q : RadRag.Question)
    (answers : List RadRag.AnswerRec) (alreadyRefined : Bool)
    (llm : Except String String) :
    (∃ t, RadRag.refineQuestionStep q answers alreadyRefined llm
        = { q with question := t }) ∧
    (RadRag.refineQuestionStep q answers alreadyRefined llm).id = q.id ∧
    (RadRag.refineQuestionStep q answers alreadyRefined llm).depends_on = q.depends_on ∧
    (RadRag.refineQuestionStep q answers alreadyRefined llm).follow_up = q.follow_up ∧
    (∀ e, llm = .error e →
      RadRag.refineQuestionStep q answers alreadyRefined llm = q) := by
  rcases refineQuestionStep_cases q answers alreadyRefined llm with h | ⟨c, hc, h⟩
  · exact ⟨⟨q.question, by rw [h]⟩, by rw [h], by rw [h], by rw [h], fun e _ => h⟩
  · refine ⟨⟨RadRag.pyStrip c, h⟩, by rw [h], by rw [h], by rw [h], ?_⟩
    intro e he
    rw [he] at hc
    cases hc

/-- C8 witness: a concrete specific question with a failing refinement call
is returned unchanged. -/
theorem claim8_refinement_frame_witness :
    RadRag.refineQuestionStep
      { type := "specific", id := "specific_0_0", category := "Lungs",
        subcategory := "Parenchyma", question := "Any nodules?",
        follow_up := some "If present, describe location and size.",
        depends_on := some "screening_0" }
      [{ question := "Any abnormality?", category := "Lungs",
         subcategory := "Parenchyma", item := "screening_0",
         answer := some "Yes", details := "opacity seen" }]
      false (.error "timeout")
      = { type := "specific", id := "specific_0_0", category := "Lungs",
          subcategory := "Parenchyma", question := "Any nodules?",
          follow_up := some "If present, describe location and size.",
          depends_on := some "screening_0" } :=
  (claim8_refinement_frame _ _ _ _).2.2.2.2 "timeout" rfl

/-- C10: when the findings list contains no entry with answer Yes, the
impression generator returns the fixed no-abnormality string and performs
no model call. -/
theorem claim10_impression_no_positive (llm : Option String)
    (findings : List RadRag.AnswerRec)
    (h : findings.filter (fun f => f.answer == some "Yes") = []) :
    RadRag.generate_impression_section llm findings
      = ("No significant abnormalities identified on the current study.", 0) := by
  simp [RadRag.generate_impression_section, h]

/-- C10 witness: a nonempty findings list whose only entry is answered No. -/
theorem claim10_impression_no_positive_witness :
    RadRag.generate_impression_section (some "model output")
      [{ question := "Any effusion?", category := "Pleura",
         subcategory := "Effusion", item := "specific_1_0",
         answer := some "No", details := "" }]
      = ("No significant abnormalities identified on the current study.", 0) :=
  claim10_impression_no_positive (some "model output") _ (by decide)

/-- Helper: every question produced by item conversion is specific. -/
theorem convert_item_type (item cat sub did : String) (q : RadRag.SQuestion)
    (h : RadRag.convert_item_to_clinical_question item cat sub did = some q) :
    q.type = "specific" := by
  unfold RadRag.convert_item_to_clinical_question at h
  dsimp only at h
  repeat' split at h
  all_goals cases h
  all_goals rfl

/-- Helper: a fold whose step preserves the screening count preserves it
globally. -/
theorem screeningCountS_foldl {α : Type}
    (st : List RadRag.SQuestion → α → List RadRag.SQuestion)
    (hst : ∀ qs a, RadRag.screeningCountS (st qs a) = RadRag.screeningCountS qs) :
    ∀ (l : List α) (qs : List RadRag.SQuestion),
      RadRag.screeningCountS (l.foldl st qs) = RadRag.screeningCountS qs
  | [], _ => rfl
  | a :: rest, qs => by
    rw [List.foldl_cons, screeningCountS_foldl st hst rest, hst]

/-- Helper: appending one converted item never adds a screening question. -/
theorem screeningCountS_addItemQuestion (cat sub did : String)
    (qs : List RadRag.SQuestion) (item : String) :
    RadRag.screeningCountS (RadRag.addItemQuestion cat sub did qs item)
      = RadRag.screeningCountS qs := by
  unfold RadRag.addItemQuestion
  cases hc : RadRag.convert_item_to_clinical_question item cat sub did with
  | none => rfl
  | some q =>
    have ht := convert_item_type item cat sub did q hc
    simp [RadRag.screeningCountS, List.filter_append, List.filter_cons, ht]

/-- Helper: the subcategory loop never adds a screening question. -/
theorem screeningCountS_addSubcatQuestions (cat did : String)
    (qs : List RadRag.SQuestion) (sub : RadRag.Subcat) :
    RadRag.screeningCountS (RadRag.addSubcatQuestions cat did qs sub)
      = RadRag.screeningCountS qs :=
  screeningCountS_foldl _
    (fun qs item => screeningCountS_addItemQuestion cat sub.name did qs item)
    sub.items qs

/-- Helper: one category step adds exactly one screening question unless
the category is skipped. -/
theorem screeningCountS_addCategoryQuestions (qs : List RadRag.SQuestion)
    (c : RadRag.Cat) :
    RadRag.screeningCountS (RadRag.addCategoryQuestions qs c)
      = RadRag.screeningCountS qs
        + (if RadRag.skip_categories.any
            (fun sk => RadRag.strContains c.category sk) then 0 else 1) := by
  unfold RadRag.addCategoryQuestions
  split
  · simp_all
  · rw [screeningCountS_foldl _
      (fun a b => screeningCountS_addSubcatQuestions _ _ a b)]
    simp_all [RadRag.screeningCountS, List.filter_append, List.filter_cons]

/-- C2 counterexample: on a checklist with one category holding two
subcategories, each with one clinical (non-procedural) item, the compiler
emits one screening question while the claim demands one per such
subcategory, that is two. -/
theorem claim2_counterexample :
    RadRag.screeningCountS
        (RadRag.create_simple_questions_from_checklist RadRag.exChecklist2) = 1 ∧
    RadRag.subcatsWithClinicalItem RadRag.exChecklist2 = 2 ∧
    RadRag.screeningCountS
        (RadRag.create_simple_questions_from_checklist RadRag.exChecklist2)
      ≠ RadRag.subcatsWithClinicalItem RadRag.exChecklist2 := by
  refine ⟨?_, ?_, ?_⟩ <;> decide

/-- C2 amended: the compiled question set contains exactly one screening
question per category whose name holds none of the skip keywords,
independently of its subcategories and items, so the screening count
equals the number of non-skipped categories. -/
theorem claim2_screening_per_category (cl : RadRag.Checklist) :
    RadRag.screeningCountS (RadRag.create_simple_questions_from_checklist cl)
      = (cl.checklist.filter (fun c =>
          !(RadRag.skip_categories.any
            (fun sk => RadRag.strContains c.category sk)))).length := by
  unfold RadRag.create_simple_questions_from_checklist
  have main : ∀ (cats : List RadRag.Cat) (qs : List RadRag.SQuestion),
      RadRag.screeningCountS (cats.foldl RadRag.addCategoryQuestions qs)
        = RadRag.screeningCountS qs + (cats.filter (fun c =>
            !(RadRag.skip_categories.any
              (fun sk => RadRag.strContains c.category sk)))).length := by
    intro cats
    induction cats with
    | nil => intro qs; simp
    | cons c rest ih =>
      intro qs
      rw [List.foldl_cons, ih, screeningCountS_addCategoryQuestions]
      cases hsk : RadRag.skip_categories.any
          (fun sk => RadRag.strContains c.category sk) with
      | true => simp [List.filter_cons, hsk]
      | false =>
        simp [List.filter_cons, hsk]
        omega
  simpa [RadRag.screeningCountS] using main cl.checklist []

/-- C3: every compilation failure mode (raised call, JSON parse failure,
non-list output, empty list) returns the fixed fallback question set, and
that set holds exactly one screening question whose id, category and
subcategory are referenced and shared by every specific question through
depends_on. -/
theorem claim3_fallback_questions (llm : Except String String)
    (parse : String → Option RadRag.ParsedValue) (st : String) :
    (∀ e, llm = .error e →
      RadRag.generate_hierarchical_questions_from_checklist llm parse st
        = RadRag.FALLBACK_QUESTIONS) ∧
    (∀ r, llm = .ok r →
      parse (RadRag.stripFences (RadRag.pyStrip r)) = none →
      RadRag.generate_hierarchical_questions_from_checklist llm parse st
        = RadRag.FALLBACK_QUESTIONS) ∧
    (∀ r, llm = .ok r →
      parse (RadRag.stripFences (RadRag.pyStrip r)) = some .nonList →
      RadRag.generate_hierarchical_questions_from_checklist llm parse st
        = RadRag.FALLBACK_QUESTIONS) ∧
    (∀ r, llm = .ok r →
      parse (RadRag.stripFences (RadRag.pyStrip r)) = some (.list []) →
      RadRag.generate_hierarchical_questions_from_checklist llm parse st
        = RadRag.FALLBACK_QUESTIONS) ∧
    (RadRag.FALLBACK_QUESTIONS.filter
      (fun q => q.type == "screening")).length = 1 ∧
    (∀ q ∈ RadRag.FALLBACK_QUESTIONS, q.type = "specific" →
      q.depends_on = some "screening_0" ∧
      q.category = "General Assessment" ∧
      q.subcategory = "Overall Evaluation") ∧
    (∃ s ∈ RadRag.FALLBACK_QUESTIONS, s.type = "screening" ∧
      s.id = "screening_0" ∧ s.category = "General Assessment" ∧
      s.subcategory = "Overall Evaluation") := by
  refine ⟨?_, ?_, ?_, ?_, by decide, by decide, by decide⟩
  · intro e he
    simp [RadRag.generate_hierarchical_questions_from_checklist, he,
      RadRag.get_fallback_questions]
  · intro r hr hp
    simp [RadRag.generate_hierarchical_questions_from_checklist, hr, hp,
      RadRag.get_fallback_questions]
  · intro r hr hp
    simp [RadRag.generate_hierarchical_questions_from_checklist, hr, hp,
      RadRag.get_fallback_questions]
  · intro r hr hp
    simp [RadRag.generate_hierarchical_questions_from_checklist, hr, hp,
      RadRag.get_fallback_questions]

/-- C3 witness: a raised call and an empty parsed list both yield the
fallback set on concrete inputs. -/
theorem claim3_fallback_questions_witness :
    RadRag.generate_hierarchical_questions_from_checklist
        (.error "API timeout") (fun _ => none) "ct_chest"
      = RadRag.FALLBACK_QUESTIONS ∧
    RadRag.generate_hierarchical_questions_from_checklist
        (.ok "[]") (fun _ => some (.list [])) "ct_chest"
      = RadRag.FALLBACK_QUESTIONS :=
  ⟨(claim3_fallback_questions (.error "API timeout") (fun _ => none)
      "ct_chest").1 "API timeout" rfl,
   (claim3_fallback_questions (.ok "[]") (fun _ => some (.list []))
      "ct_chest").2.2.2.1 "[]" rfl rfl⟩

/-- Helper: a string holding no digit satisfies the no-fabrication
property against any inputs, since every measurement token starts with a
digit. -/
theorem noFabrication_of_no_digit (s : String)
    (hs : s.toList.all (fun c => !c.isDigit) = true)
    (inputs : List String) : RadRag.noFabrication s inputs := by
  intro t ht hsub
  exfalso
  obtain ⟨ds, u, hne, hds, _, hcat⟩ := ht
  obtain ⟨c, cs, rfl⟩ : ∃ c cs, ds = c :: cs := by
    cases ds with
    | nil => exact absurd rfl hne
    | cons c cs => exact ⟨c, cs, rfl⟩
  have hcd : c.isDigit = true := by
    have := List.all_eq_true.mp hds c
    simpa using this (List.mem_cons_self c cs)
  have hct : c ∈ t.toList := by
    rcases hcat with h1 | h1 <;> rw [h1] <;> simp
  have hinf : t.toList <:+: s.toList := by
    have : decide (t.toList <:+: s.toList) = true := by
      simpa [RadRag.strContains] using hsub
    exact of_decide_eq_true this
  have hcs : c ∈ s.toList := hinf.sublist.subset hct
  have := List.all_eq_true.mp hs c hcs
  simp [hcd] at this

/-- C9 counterexample: the observations section is the model output passed
through unchanged, so a model response carrying the token 17 mm over
findings whose details hold no measurement violates the claimed
no-fabrication property. -/
theorem claim9_counterexample :
    ¬ RadRag.noFabrication
        (RadRag.generate_observations_section (some "Nodule measuring 17 mm.")
          RadRag.exObsFindings RadRag.exObsFindings).1
        (RadRag.exObsFindings.map (fun f => f.details)) := by
  intro h
  have hm : RadRag.isMeasurementToken "17 mm" :=
    ⟨['1', '7'], "mm", by decide, by decide, Or.inl rfl, Or.inr (by decide)⟩
  obtain ⟨d, hd, hsub⟩ := h "17 mm" hm (by decide)
  have hd2 : d = "mild effusion" := by simpa [RadRag.exObsFindings] using hd
  rw [hd2] at hsub
  exact absurd hsub (by decide)

/-- C9 amended: the code itself fabricates nothing and filters nothing:
each section equals the model output verbatim when the call succeeds, and
a fixed digit-free string (the error marker, or the no-abnormality
sentence) otherwise, so the no-fabrication property of the section holds
exactly when the model output satisfies it. -/
theorem claim9_sections_pass_through (obsLLM impLLM : Option String)
    (findings all_answers : List RadRag.AnswerRec) (inputs : List String) :
    (∀ r, obsLLM = some r →
      (RadRag.generate_observations_section obsLLM findings all_answers).1 = r) ∧
    (obsLLM = none →
      RadRag.noFabrication
        (RadRag.generate_observations_section obsLLM findings all_answers).1
        inputs) ∧
    (∀ r, impLLM = some r →
      findings.filter (fun f => f.answer == some "Yes") ≠ [] →
      (RadRag.generate_impression_section impLLM findings).1 = r) ∧
    (impLLM = none →
      RadRag.noFabrication
        (RadRag.generate_impression_section impLLM findings).1 inputs) ∧
    (findings.filter (fun f => f.answer == some "Yes") = [] →
      RadRag.noFabrication
        (RadRag.generate_impression_section impLLM findings).1 inputs) := by
  refine ⟨?_, ?_, ?_, ?_, ?_⟩
  · intro r hr
    simp [RadRag.generate_observations_section, hr]
  · intro h
    rw [h]
    have hred : (RadRag.generate_observations_section none findings all_answers).1
        = "Error generating observations section." := rfl
    rw [hred]
    exact noFabrication_of_no_digit _ (by decide) inputs
  · intro r hr hne
    have hfe : (findings.filter (fun f => f.answer == some "Yes")).isEmpty = false := by
      simpa [List.isEmpty_eq_false] using hne
    simp [RadRag.generate_impression_section, hr, hfe]
  · intro h
    subst h
    unfold RadRag.generate_impression_section
    dsimp only
    split
    · exact noFabrication_of_no_digit _ (by decide) inputs
    · exact noFabrication_of_no_digit _ (by decide) inputs
  · intro h
    unfold RadRag.generate_impression_section
    dsimp only
    rw [if_pos (by simp [h])]
    exact noFabrication_of_no_digit _ (by decide) inputs

/-- C9 amended witness: a successful call is passed through verbatim and a
raised call yields the digit-free marker. -/
theorem claim9_sections_pass_through_witness :
    (RadRag.generate_observations_section (some "Unremarkable study.")
        RadRag.exObsFindings RadRag.exObsFindings).1 = "Unremarkable study." ∧
    RadRag.noFabrication
      (RadRag.generate_observations_section none
        RadRag.exObsFindings RadRag.exObsFindings).1
      ["mild effusion"] :=
  ⟨(claim9_sections_pass_through (some "Unremarkable study.") none
      RadRag.exObsFindings RadRag.exObsFindings ["mild effusion"]).1
      "Unremarkable study." rfl,
   (claim9_sections_pass_through none none
      RadRag.exObsFindings RadRag.exObsFindings ["mild effusion"]).2.1 rfl⟩
